import Mathlib

/-!
Verification of the link-remover moderation bots.

The repository contains three Telegram moderation bots:
* `index.js` (MongoDB variant): the moderation pipeline `moderateMessage`,
  the captcha admission gate in the `message` handler, and the flood window;
* an unnamed Telegraf bot (first unnamed file): `GroupManagerBot` with the
  warning/escalation store (`addWarning`, `handleRuleViolation`) and the
  banned-script detector `detectLanguages`;
* an unnamed link-warning bot (second unnamed file, two variants): per-user
  link warnings with mute/kick at 3 warnings.

Texts are embedded as lists of Unicode code points (`List Nat`), matching the
JavaScript `for..of` / `codePointAt` view of strings.  Timestamps are `Int`
milliseconds, matching `Date.now()`.  Best-effort platform calls
(delete/kick/restrict/send) are modelled by Boolean success flags; a thrown
and caught exception corresponds to flag `false`.
-/

namespace LinkRemover

/-! ## Shared text helpers -/

/-- Code points of a string literal, the `for..of` view used by the bots. -/
def strCP (s : String) : List Nat := s.toList.map Char.toNat

/-- ASCII digit, the regex class `\d`. -/
def isDigitCP (c : Nat) : Bool := 0x30 ≤ c && c ≤ 0x39

/-- Whitespace recognised by the regex class `\s` and by `String.trim`
(ASCII fragment; the inputs the bots inspect are ASCII commands and URLs). -/
def isWS (c : Nat) : Bool :=
  c == 0x20 || c == 0x9 || c == 0xA || c == 0xB || c == 0xC || c == 0xD

/-- `String.prototype.toLowerCase`, restricted to the code-point ranges the
pipelines inspect afterwards: ASCII letters and the Cyrillic block
(`U+0400 - U+042F` map into `U+0430 - U+045F`); all other code points the
detectors look at (CJK, keywords already lowercase) are case-invariant. -/
def toLowerCode (c : Nat) : Nat :=
  if 0x41 ≤ c ∧ c ≤ 0x5A then c + 0x20
  else if 0x410 ≤ c ∧ c ≤ 0x42F then c + 0x20
  else if 0x400 ≤ c ∧ c ≤ 0x40F then c + 0x50
  else c

/-- Whether `pat` occurs at the head of `l` (one regex alternative anchored at
the current scan position). -/
def leadsWith : List Nat → List Nat → Bool
  | [], _ => true
  | _ :: _, [] => false
  | p :: ps, c :: cs => p == c && leadsWith ps cs

/-- `String.prototype.includes`: `pat` occurs somewhere in `l`. -/
def containsSeq (pat l : List Nat) : Bool := l.tails.any (leadsWith pat)

/-- Head of the remaining input is a non-whitespace character (`\S`). -/
def nonWS : List Nat → Bool
  | [] => false
  | c :: _ => !isWS c

/-- `String.prototype.trim` (ASCII whitespace fragment). -/
def trimWS (l : List Nat) : List Nat :=
  ((l.dropWhile isWS).reverse.dropWhile isWS).reverse

/-! ## GroupManagerBot (first unnamed source file)

`LANGUAGE_SCRIPTS`, `detectLanguages`, `containsLinks`, `containsBannedWords`,
`addWarning`, `handleRuleViolation`, `banUserAuto`, `resetUserWarnings`. -/

/-- The keys of the `LANGUAGE_SCRIPTS` table. -/
inductive Lang
  | chinese
  | arabic
  | russian
  | japanese
  | korean
  | hindi
deriving DecidableEq

/-- The `ranges` arrays of the `LANGUAGE_SCRIPTS` table. -/
def scriptRanges : Lang → List (Nat × Nat)
  | .chinese => [(0x4E00, 0x9FFF), (0x3400, 0x4DBF), (0x20000, 0x2A6DF)]
  | .arabic => [(0x0600, 0x06FF), (0x0750, 0x077F), (0x08A0, 0x08FF)]
  | .russian => [(0x0400, 0x04FF)]
  | .japanese => [(0x3040, 0x309F), (0x30A0, 0x30FF), (0x4E00, 0x9FFF)]
  | .korean => [(0xAC00, 0xD7AF), (0x1100, 0x11FF)]
  | .hindi => [(0x0900, 0x097F)]

/-- The inner range loop of `detectLanguages`: the code point of `char` lies
in one of the ranges of `lang` (the `break` after a hit only skips the
remaining ranges of the same language, hence `any`). -/
def charMatches (l : Lang) (c : Nat) : Bool :=
  (scriptRanges l).any (fun r => r.1 ≤ c && c ≤ r.2)

/-- One character step of `detectLanguages`: the loop over `bannedLanguages`,
pushing a language on its first match (`!detected.includes(lang)`).  Every
entry of `bannedLanguages` is a key of `LANGUAGE_SCRIPTS` (they are filtered
by `setBannedLanguages`), so the `if (LANGUAGE_SCRIPTS[lang])` guard is
always true in the embedding. -/
def detectStep (banned : List Lang) (det : List Lang) (c : Nat) : List Lang :=
  banned.foldl (fun d l => if charMatches l c = true ∧ l ∉ d then d ++ [l] else d) det

/-- `detectLanguages(text, bannedLanguages)`: iterate the code points of the
text (`for..of`), accumulating the distinct banned scripts hit. -/
def detectLanguages (text : List Nat) (banned : List Lang) : List Lang :=
  text.foldl (detectStep banned) []

/-- `containsBannedWords(text, bannedWords)`: case-insensitive substring
containment of any banned word. -/
def containsBannedWords (text : List Nat) (ws : List (List Nat)) : Bool :=
  ws.any (fun w => containsSeq (w.map toLowerCode) (text.map toLowerCode))

/-- `MAX_WARNINGS` of the GroupManagerBot. -/
def MAX_WARNINGS : Nat := 3

/-- `addWarning`: the SQL `INSERT OR REPLACE` stores `COALESCE(prev, 0) + 1`
and the follow-up `SELECT` returns that stored value. -/
def addWarning (count : Nat) : Nat := count + 1

/-- Outcome of one `handleRuleViolation` call. -/
structure HRVOut where
  /-- the count returned by `addWarning` and shown in the warning message -/
  warnedCount : Nat
  /-- the warnings row was updated (the `INSERT OR REPLACE` ran) -/
  persisted : Bool
  /-- `banChatMember` succeeded inside `banUserAuto` -/
  banFired : Bool
  /-- the stored count after the call returns -/
  finalCount : Nat
deriving DecidableEq

/-- `handleRuleViolation(ctx, reason)` for a violation already determined.
Control flow of the source: `ctx.deleteMessage` in its own try/catch (failure
ignored), then `await addWarning` (the store update), then `ctx.reply` of the
warning text (not guarded: a failure propagates and skips the ban step), then
if the count reached `MAX_WARNINGS`, `banUserAuto`, whose try block calls
`ctx.banChatMember` and, only after it succeeded, `resetUserWarnings`
(deleting the row, count 0). -/
def handleRuleViolation (deleteOk replyOk banOk : Bool) (count : Nat) : HRVOut :=
  let w := addWarning count
  if replyOk = false then ⟨w, true, false, w⟩
  else if MAX_WARNINGS ≤ w then
    if banOk then ⟨w, true, true, 0⟩
    else ⟨w, true, false, w⟩
  else ⟨w, true, false, w⟩

/-- Stored warning count after `n` consecutive violations of one (user, chat)
pair, starting from no record, with all platform calls succeeding. -/
def warnRunState : Nat → Nat
  | 0 => 0
  | n + 1 => (handleRuleViolation true true true (warnRunState n)).finalCount

/-! ## Link-warning bot (second unnamed source file, first variant)

`containsUrl` and the `bot.on("message")` link handler. -/

/-- `containsUrl` of the first variant: `/(https?:\/\/[^\s]+)/gi`. -/
def containsUrlV1 (l : List Nat) : Bool :=
  let lo := l.map toLowerCode
  lo.tails.any (fun t =>
    (leadsWith (strCP "http://") t && nonWS (t.drop 7)) ||
    (leadsWith (strCP "https://") t && nonWS (t.drop 8)))

/-- The link handler of the first variant, entered once `containsUrl` matched.
Everything from `User.findOne` to `user.save()` sits in one `try` whose
`catch` only logs, so the first failing `await` skips the save.  The result
is the persisted warning count: `none` when `user.save()` was never reached.
In memory `user.warnings` is incremented first; with fewer than 3 warnings the
handler deletes the message and replies, otherwise it restricts (mutes) the
user, replies, and resets the in-memory count to 0 before saving. -/
def linkHandlerV1 (warnings : Nat) (deleteOk replyOk restrictOk : Bool) : Option Nat :=
  let w := warnings + 1
  if w < 3 then
    if deleteOk = false then none
    else if replyOk = false then none
    else some w
  else
    if restrictOk = false then none
    else if replyOk = false then none
    else some 0

/-! ## MongoDB bot (`index.js`): detectors -/

/-- Scan for `k` consecutive code points satisfying `p` (regex `p{k,}`). -/
def hasRun (p : Nat → Bool) (k : Nat) (l : List Nat) : Bool :=
  l.tails.any (fun t => k ≤ t.length && (t.take k).all p)

/-- Regex class `[a-z]` under the `i` flag. -/
def isAlphaCI (c : Nat) : Bool :=
  let lc := toLowerCode c
  0x61 ≤ lc && lc ≤ 0x7A

/-- Regex class `[_\-\.]` of the fifth username pattern. -/
def isSepCP (c : Nat) : Bool := c == 0x5F || c == 0x2D || c == 0x2E

/-- The `.` metacharacter: any code point except a line terminator. -/
def isDotCP (c : Nat) : Bool :=
  !(c == 0x0A || c == 0x0D || c == 0x2028 || c == 0x2029)

/-- After a letter: consume the run of separators; the pattern
`[a-z][_\-\.]{2,}[a-z]` matches exactly when the first non-separator after a
run of at least two separators is again a letter. -/
def sepsThenAlpha : List Nat → Nat → Bool
  | [], _ => false
  | c :: cs, n => if isSepCP c then sepsThenAlpha cs (n + 1) else isAlphaCI c && 2 ≤ n

/-- `usernameSpamPatterns[0]`: `/\d{4,}/`. -/
def unamePat0 (l : List Nat) : Bool := hasRun isDigitCP 4 l

/-- `usernameSpamPatterns[1]`: `/^(free|official|freegift|giveaway)/i`. -/
def unamePat1 (l : List Nat) : Bool :=
  let lo := l.map toLowerCode
  leadsWith (strCP "free") lo || leadsWith (strCP "official") lo ||
  leadsWith (strCP "freegift") lo || leadsWith (strCP "giveaway") lo

/-- `usernameSpamPatterns[2]`: `/[_]{3,}/`. -/
def unamePat2 (l : List Nat) : Bool := hasRun (fun c => c == 0x5F) 3 l

/-- `usernameSpamPatterns[3]`: `/(bot|b0t|promo|offer|pr0mo)/i`. -/
def unamePat3 (l : List Nat) : Bool :=
  let lo := l.map toLowerCode
  containsSeq (strCP "bot") lo || containsSeq (strCP "b0t") lo ||
  containsSeq (strCP "promo") lo || containsSeq (strCP "offer") lo ||
  containsSeq (strCP "pr0mo") lo

/-- `usernameSpamPatterns[4]`: `/[a-z]{1}[_\-\.]{2,}[a-z]{1,}/i`. -/
def unamePat4 (l : List Nat) : Bool :=
  l.tails.any (fun t =>
    match t with
    | [] => false
    | a :: rest => isAlphaCI a && sepsThenAlpha rest 0)

/-- `usernameSpamPatterns[5]`: `/^.{1,3}\d{3,}$/`. -/
def unamePat5 (l : List Nat) : Bool :=
  [1, 2, 3].any (fun p =>
    p + 3 ≤ l.length && (l.take p).all isDotCP && (l.drop p).all isDigitCP)

/-- `isUsernameSpam(username)`: `false` on a missing (or falsy empty)
username, otherwise `usernameSpamPatterns.some(r => r.test(username))`. -/
def isUsernameSpam : Option (List Nat) → Bool
  | none => false
  | some l =>
    if l = [] then false
    else unamePat0 l || unamePat1 l || unamePat2 l || unamePat3 l ||
         unamePat4 l || unamePat5 l

/-- `chineseRegex = /[一-鿿]/`. -/
def hasChineseCP (l : List Nat) : Bool :=
  l.any (fun c => 0x4E00 ≤ c && c ≤ 0x9FFF)

/-- `russianRegex = /[Ѐ-ӿԀ-ԯⷠ-ⷿꙀ-ꚟ]/`. -/
def hasRussianCP (l : List Nat) : Bool :=
  l.any (fun c =>
    (0x400 ≤ c && c ≤ 0x4FF) || (0x500 ≤ c && c ≤ 0x52F) ||
    (0x2DE0 ≤ c && c ≤ 0x2DFF) || (0xA640 ≤ c && c ≤ 0xA69F))

/-- The `adultKeywords` array. -/
def adultKeywords : List (List Nat) :=
  [strCP "sex", strCP "porn", strCP "xxx", strCP "18+", strCP "adult",
   strCP "nude", strCP "hot"]

/-- `adultKeywords.some(w => lower.includes(w))` (applied to the lowercased
text, the keywords are already lowercase). -/
def hasAdult (lower : List Nat) : Bool :=
  adultKeywords.any (fun w => containsSeq w lower)

/-- `urlRegex = /(https?:\/\/|www\.)\S+/i` (applied to the lowercased text). -/
def urlTest (lower : List Nat) : Bool :=
  lower.tails.any (fun t =>
    (leadsWith (strCP "http://") t && nonWS (t.drop 7)) ||
    (leadsWith (strCP "https://") t && nonWS (t.drop 8)) ||
    (leadsWith (strCP "www.") t && nonWS (t.drop 4)))

/-- `hfSpamCheck(text)`: returns `false` on empty (trimmed) text; otherwise
the verdict of the best-effort HuggingFace call, where `oracle = false`
also covers a missing fetch, an API error, or a non-spam label. -/
def hfSpamCheck (oracle : Bool) (text : List Nat) : Bool :=
  if trimWS text = [] then false else oracle

/-! ## MongoDB bot: data model -/

/-- The per-group settings document created by `getGroup`. -/
structure GroupSettings where
  captcha : Bool
  autoBan : Bool
  floodLimit : Int
  floodWindowSec : Int
  whitelist : List Int
  blacklist : List Int
deriving DecidableEq

/-- The defaults `getGroup` inserts for a chat seen for the first time. -/
def defaultGroup : GroupSettings :=
  { captcha := true, autoBan := true, floodLimit := 5, floodWindowSec := 7,
    whitelist := [], blacklist := [] }

/-- The `globals` document. -/
structure Globals where
  whitelist : List Int
  blacklist : List Int
deriving DecidableEq

/-- The empty `globals` document inserted at startup. -/
def emptyGlobals : Globals := { whitelist := [], blacklist := [] }

/-- The message fields `moderateMessage` reads. -/
structure Msg where
  chatId : Int
  userId : Int
  username : Option (List Nat)
  text : Option (List Nat)
  caption : Option (List Nat)
deriving DecidableEq

/-- `(msg.text || msg.caption || '')` — an empty string is falsy. -/
def msgText (m : Msg) : List Nat :=
  match m.text with
  | some t => if t = [] then (match m.caption with | some c => c | none => []) else t
  | none => match m.caption with | some c => c | none => []

/-- The lowercased text the language/adult/link checks run on. -/
def lowerText (m : Msg) : List Nat := (msgText m).map toLowerCode

/-! ## MongoDB bot: flood window -/

/-- The flood-control block of `moderateMessage` for one `(chat, user)` slot
of `messageWindow`: push `Date.now()`, drop entries at or before
`now - (floodWindowSec || 7) * 1000`, then compare the length against
`floodLimit || 5`; on a violation the slot is cleared. Returns
(violation fired, new slot contents). -/
def floodUpdate (floodLimit floodWindowSec : Int) (w : List Int) (now : Int) :
    Bool × List Int :=
  let ws := if floodWindowSec = 0 then 7 else floodWindowSec
  let cutoff := now - ws * 1000
  let w' := (w ++ [now]).filter (fun ts => decide (cutoff < ts))
  let lim := if floodLimit = 0 then 5 else floodLimit
  if lim < (w'.length : Int) then (true, []) else (false, w')

/-- Iterate `floodUpdate` over a list of arrival times, collecting the
violation flags and the final window. -/
def floodRun (floodLimit floodWindowSec : Int) :
    List Int → List Int → List Bool × List Int
  | w, [] => ([], w)
  | w, t :: ts =>
    let fw := floodUpdate floodLimit floodWindowSec w t
    let rest := floodRun floodLimit floodWindowSec fw.2 ts
    (fw.1 :: rest.1, rest.2)

/-! ## MongoDB bot: moderation pipeline -/

/-- The reason strings `deleteAndAct` is called with. -/
inductive Reason
  | suspiciousUsername
  | aiSpam
  | foreignLanguage
  | adultContent
  | linkDetected
  | flooding
deriving DecidableEq

/-- Result of `moderateMessage` for one message: allowed, the immediate
blacklist kick, or exactly one violation handed to `deleteAndAct`. -/
inductive Verdict
  | allowed
  | blacklistBan
  | violation (r : Reason)
deriving DecidableEq

/-- `moderateMessage(msg)`.  `adminRes` is the value of
`isUserAdmin(chatId, userId)` (a platform lookup with an `ADMIN_IDS`
fallback), `oracle` the outcome of the HuggingFace call.  Returns the verdict
together with the new `messageWindow[chatId][userId]` slot (`w` is the slot
before the call; every other slot is untouched by the source). -/
def moderateMessage (adminRes : Bool) (g : GroupSettings) (gl : Globals)
    (oracle : Bool) (m : Msg) (w : List Int) (now : Int) : Verdict × List Int :=
  if adminRes then (.allowed, w)
  else if m.userId ∈ gl.whitelist ∨ m.userId ∈ g.whitelist then (.allowed, w)
  else if m.userId ∈ gl.blacklist ∨ m.userId ∈ g.blacklist then (.blacklistBan, w)
  else if isUsernameSpam m.username then (.violation .suspiciousUsername, w)
  else if hfSpamCheck oracle (msgText m) then (.violation .aiSpam, w)
  else if hasChineseCP (lowerText m) || hasRussianCP (lowerText m) then
    (.violation .foreignLanguage, w)
  else if hasAdult (lowerText m) then (.violation .adultContent, w)
  else if urlTest (lowerText m) then (.violation .linkDetected, w)
  else if 0 < g.floodLimit then
    let fw := floodUpdate g.floodLimit g.floodWindowSec w now
    if fw.1 then (.violation .flooding, fw.2) else (.allowed, fw.2)
  else (.allowed, w)

/-- Run `moderateMessage` over a sequence of (message, arrival time) pairs,
threading the flood-window slot. -/
def moderateSeq (adminRes : Bool) (g : GroupSettings) (gl : Globals)
    (oracle : Bool) : List Int → List (Msg × Int) → List Verdict × List Int
  | w, [] => ([], w)
  | w, p :: ps =>
    let r := moderateMessage adminRes g gl oracle p.1 w p.2
    let rest := moderateSeq adminRes g gl oracle r.2 ps
    (r.1 :: rest.1, rest.2)

/-! ## MongoDB bot: captcha admission gate -/

/-- Decimal value of a digit run. -/
def decVal (l : List Nat) : Int :=
  l.foldl (fun a c => a * 10 + ((c : Int) - 0x30)) 0

/-- Hexadecimal digit test. -/
def isHexDigitCP (c : Nat) : Bool :=
  isDigitCP c || (0x61 ≤ c && c ≤ 0x66) || (0x41 ≤ c && c ≤ 0x46)

/-- Hexadecimal value of a hex-digit run. -/
def hexVal (l : List Nat) : Int :=
  l.foldl (fun a c =>
    a * 16 + (if isDigitCP c then (c : Int) - 0x30
              else if 0x61 ≤ c && c ≤ 0x66 then (c : Int) - 0x57
              else (c : Int) - 0x37)) 0

/-- Longest decimal-digit run at the head, `none` (NaN) when empty. -/
def parseDec (sgn : Int) (l : List Nat) : Option Int :=
  let ds := l.takeWhile isDigitCP
  if ds = [] then none else some (sgn * decVal ds)

/-- Longest hex-digit run at the head, `none` (NaN) when empty. -/
def parseHexRun (sgn : Int) (l : List Nat) : Option Int :=
  let ds := l.takeWhile isHexDigitCP
  if ds = [] then none else some (sgn * hexVal ds)

/-- `parseInt` with no radix argument on already-trimmed input: an optional
sign, then either a `0x`/`0X` hexadecimal run or a decimal run; the longest
valid run is taken and trailing garbage ignored; `none` stands for `NaN`. -/
def parseIntJS (l : List Nat) : Option Int :=
  let sr : Int × List Nat :=
    match l with
    | 0x2B :: rest => (1, rest)
    | 0x2D :: rest => (-1, rest)
    | _ => (1, l)
  match sr.2 with
  | 0x30 :: x :: rest =>
    if x = 0x78 ∨ x = 0x58 then parseHexRun sr.1 rest else parseDec sr.1 sr.2
  | _ => parseDec sr.1 sr.2

/-- One `captchaStore` entry: `{ answer, expiresAt, tries }` (the stored
`welcomeMsgId` handle is irrelevant to the state machine). -/
structure CapEntry where
  answer : Int
  expiresAt : Int
  tries : Nat
deriving DecidableEq

/-- `120000` ms: `expiresAt = Date.now() + 120000` at challenge creation. -/
def challengeDurationMs : Int := 120000

/-- `125000` ms: the `setTimeout` delay of the deferred expiry check. -/
def expiryTimerDelayMs : Int := 125000

/-- The entry installed for a new member: answer recorded, expiry two minutes
out, no tries used. -/
def newChallenge (ans : Int) (now : Int) : CapEntry :=
  ⟨ans, now + challengeDurationMs, 0⟩

/-- The deferred expiry callback for one `(chat, user)` key: a missing entry
makes it a no-op; a present entry is kicked and deleted exactly when
`Date.now() > expiresAt`.  Returns (kick issued, entry afterwards). -/
def captchaExpiryCheck (cap : Option CapEntry) (now : Int) : Bool × Option CapEntry :=
  match cap with
  | none => (false, none)
  | some e => if e.expiresAt < now then (true, none) else (false, some e)

/-- What the gate did with a message it consumed. -/
inductive GateOutcome
  | expiredDrop
  | solved
  | retry (remaining : Nat)
  | failedKick
deriving DecidableEq

/-- The best-effort platform calls issued by each gate branch. -/
inductive Action
  | restorePerms
  | notifySuccess
  | notifyTriesLeft (n : Nat)
  | kick
deriving DecidableEq

/-- Side effects of each gate outcome in the source: a solved captcha lifts
the restriction (`restrictChatMember` with all permissions) and announces
success; a retry replies with the remaining tries; exhausted tries kick; a
lapsed entry found on the message path is dropped with no call at all. -/
def gateActions : GateOutcome → List Action
  | .expiredDrop => []
  | .solved => [.restorePerms, .notifySuccess]
  | .retry n => [.notifyTriesLeft n]
  | .failedKick => [.kick]

/-- Result of the `bot.on('message')` text handler for one message. -/
inductive HandlerResult
  | gate (o : GateOutcome)
  | moderated (v : Verdict)
  | skipped
deriving DecidableEq

/-- The text branch of `bot.on('message')` for one `(chat, user)` key:
`cap` is `captchaStore[key]`, `w` the flood slot.  A live entry consumes the
message: expired entries are silently dropped; a parse of the trimmed text
equal to the stored answer resolves the gate; anything else (including an
unparsable text) is a wrong answer, incrementing `tries` and kicking at 3.
Only with no entry, and only in (super)group chats, does the message reach
`moderateMessage`.  Returns (result, entry afterwards, flood slot afterwards). -/
def handleTextMessage (adminRes : Bool) (g : GroupSettings) (gl : Globals)
    (oracle : Bool) (m : Msg) (cap : Option CapEntry) (w : List Int)
    (now : Int) (isGroup : Bool) : HandlerResult × Option CapEntry × List Int :=
  match m.text with
  | none => (.skipped, cap, w)
  | some txt =>
    if txt = [] then (.skipped, cap, w)
    else
      match cap with
      | some e =>
        if e.expiresAt < now then (.gate .expiredDrop, none, w)
        else
          let wrong : HandlerResult × Option CapEntry × List Int :=
            let t := e.tries + 1
            if 3 ≤ t then (.gate .failedKick, none, w)
            else (.gate (.retry (3 - t)), some ⟨e.answer, e.expiresAt, t⟩, w)
          match parseIntJS (trimWS txt) with
          | some n => if n = e.answer then (.gate .solved, none, w) else wrong
          | none => wrong
      | none =>
        if isGroup then
          let r := moderateMessage adminRes g gl oracle m w now
          (.moderated r.1, none, r.2)
        else (.skipped, none, w)

/-! ## The §4.3 pipeline of the specification -/

/-- The check slots of the order prescribed by §4.3 of the specification. -/
inductive SpecCheck
  | username
  | oracle
  | scripts
  | adult
  | links
  | words
  | flood
deriving DecidableEq

/-- Output of the prescribed pipeline. -/
inductive SpecOutcome
  | allowed
  | banned
  | gated
  | violation (c : SpecCheck)
deriving DecidableEq

/-- Modelled from the spec: the fixed priority order of §4.3 — exemption,
blacklist, admission gate, username, oracle, scripts, adult content, links,
banned words, flood — first match wins.  Each argument is the outcome of the
corresponding check on the message under consideration.  This definition
exists only to be compared with the behaviour of the source pipeline; the
banned-words slot has no counterpart in `index.js`. -/
def specPipeline (exempt blacklisted gateLive uname oracle scripts adult links
    words flood : Bool) : SpecOutcome :=
  if exempt then .allowed
  else if blacklisted then .banned
  else if gateLive then .gated
  else if uname then .violation .username
  else if oracle then .violation .oracle
  else if scripts then .violation .scripts
  else if adult then .violation .adult
  else if links then .violation .links
  else if words then .violation .words
  else if flood then .violation .flood
  else .allowed

/-! ## Lemmas about the banned-script detector -/

theorem mem_detectStep (c : Nat) (l : Lang) :
    ∀ (banned det : List Lang),
      l ∈ detectStep banned det c ↔ l ∈ det ∨ (l ∈ banned ∧ charMatches l c = true)
  | [], det => by simp [detectStep]
  | b :: bs, det => by
    have step : detectStep (b :: bs) det c =
        detectStep bs (if charMatches b c = true ∧ b ∉ det then det ++ [b] else det) c := by
      simp [detectStep]
    rw [step, mem_detectStep c l bs]
    by_cases hm : charMatches b c = true ∧ b ∉ det
    · rw [if_pos hm]
      constructor
      · rintro (hd | hrest)
        · rcases List.mem_append.1 hd with hd | hb
          · exact Or.inl hd
          · rcases List.mem_singleton.1 hb with rfl
            exact Or.inr ⟨List.mem_cons_self _ _, hm.1⟩
        · exact Or.inr ⟨List.mem_cons_of_mem _ hrest.1, hrest.2⟩
      · rintro (hd | ⟨hmem, hc⟩)
        · exact Or.inl (List.mem_append.2 (Or.inl hd))
        · rcases List.mem_cons.1 hmem with rfl | hbs
          · exact Or.inl (List.mem_append.2 (Or.inr (List.mem_singleton.2 rfl)))
          · exact Or.inr ⟨hbs, hc⟩
    · rw [if_neg hm]
      push_neg at hm
      constructor
      · rintro (hd | hrest)
        · exact Or.inl hd
        · exact Or.inr ⟨List.mem_cons_of_mem _ hrest.1, hrest.2⟩
      · rintro (hd | ⟨hmem, hc⟩)
        · exact Or.inl hd
        · rcases List.mem_cons.1 hmem with rfl | hbs
          · exact Or.inl (hm hc)
          · exact Or.inr ⟨hbs, hc⟩

theorem nodup_detectStep (c : Nat) :
    ∀ (banned det : List Lang), det.Nodup → (detectStep banned det c).Nodup
  | [], det, h => by simpa [detectStep] using h
  | b :: bs, det, h => by
    have step : detectStep (b :: bs) det c =
        detectStep bs (if charMatches b c = true ∧ b ∉ det then det ++ [b] else det) c := by
      simp [detectStep]
    rw [step]
    apply nodup_detectStep c bs
    by_cases hm : charMatches b c = true ∧ b ∉ det
    · rw [if_pos hm]
      refine List.Nodup.append h (List.nodup_singleton b) ?_
      intro x hx hxb
      rcases List.mem_singleton.1 hxb with rfl
      exact hm.2 hx
    · rwa [if_neg hm]

theorem mem_foldDetect (banned : List Lang) (l : Lang) :
    ∀ (text : List Nat) (det : List Lang),
      l ∈ text.foldl (detectStep banned) det ↔
        l ∈ det ∨ (l ∈ banned ∧ ∃ c ∈ text, charMatches l c = true)
  | [], det => by simp
  | c :: cs, det => by
    rw [List.foldl_cons, mem_foldDetect banned l cs, mem_detectStep c l banned]
    constructor
    · rintro ((hd | ⟨hb, hc⟩) | ⟨hb, x, hx, hmx⟩)
      · exact Or.inl hd
      · exact Or.inr ⟨hb, c, List.mem_cons_self _ _, hc⟩
      · exact Or.inr ⟨hb, x, List.mem_cons_of_mem _ hx, hmx⟩
    · rintro (hd | ⟨hb, x, hx, hmx⟩)
      · exact Or.inl (Or.inl hd)
      · rcases List.mem_cons.1 hx with rfl | hxs
        · exact Or.inl (Or.inr ⟨hb, hmx⟩)
        · exact Or.inr ⟨hb, x, hxs, hmx⟩

theorem nodup_foldDetect (banned : List Lang) :
    ∀ (text : List Nat) (det : List Lang),
      det.Nodup → (text.foldl (detectStep banned) det).Nodup
  | [], _, h => h
  | c :: cs, det, h =>
    nodup_foldDetect banned cs (detectStep banned det c) (nodup_detectStep c banned det h)

/-- C5: the banned-script detector, evaluated per Unicode code point, returns
exactly the distinct configured banned scripts whose code-point ranges contain
some character of the text; it is empty whenever no code point of the text
lies in a banned script's ranges, and a character in overlapping ranges (the
CJK block shared by Chinese and Japanese) reports all matching configured
scripts. -/
theorem c5_detect_characterisation :
    (∀ (text : List Nat) (banned : List Lang) (l : Lang),
        l ∈ detectLanguages text banned ↔
          l ∈ banned ∧ ∃ c ∈ text, charMatches l c = true)
    ∧ (∀ (text : List Nat) (banned : List Lang), (detectLanguages text banned).Nodup)
    ∧ (∀ (text : List Nat) (banned : List Lang),
        (∀ l ∈ banned, ∀ c ∈ text, charMatches l c = false) →
          detectLanguages text banned = [])
    ∧ detectLanguages [0x4E00] [Lang.chinese, Lang.japanese] =
        [Lang.chinese, Lang.japanese] := by
  have hmem : ∀ (text : List Nat) (banned : List Lang) (l : Lang),
      l ∈ detectLanguages text banned ↔
        l ∈ banned ∧ ∃ c ∈ text, charMatches l c = true := by
    intro text banned l
    rw [detectLanguages, mem_foldDetect banned l text]
    simp
  refine ⟨hmem, ?_, ?_, by decide⟩
  · intro text banned
    exact nodup_foldDetect banned text [] List.nodup_nil
  · intro text banned hnone
    rw [List.eq_nil_iff_forall_not_mem]
    intro l hl
    rcases (hmem text banned l).1 hl with ⟨hb, c, hc, hmx⟩
    rw [hnone l hb c hc] at hmx
    exact Bool.false_ne_true hmx

/-- C5 witness: concrete instance of the emptiness conjunct. -/
theorem c5_witness :
    detectLanguages (strCP "hello") [Lang.chinese, Lang.russian] = [] :=
  c5_detect_characterisation.2.2.1 (strCP "hello") [Lang.chinese, Lang.russian]
    (by decide)

/-! ## Warning-count escalation -/

/-- C1: starting from no record and with the platform calls succeeding, after
N consecutive violations of one (user, chat) pair with no intervening reset
(N at most the threshold), the count reported on the Nth violation equals
min(N, MAX_WARNINGS); the escalation ban fires on the Nth violation exactly
when the count reaches the threshold, and the stored count is then reset to
0; below the threshold the stored count is N, one more per violation. -/
theorem c1_warning_escalation (N : Nat) (h1 : 1 ≤ N) (h2 : N ≤ MAX_WARNINGS) :
    (handleRuleViolation true true true (warnRunState (N - 1))).warnedCount =
      min N MAX_WARNINGS
    ∧ ((handleRuleViolation true true true (warnRunState (N - 1))).banFired = true ↔
        N = MAX_WARNINGS)
    ∧ warnRunState N = if N = MAX_WARNINGS then 0 else N := by
  have h2' : N ≤ 3 := h2
  interval_cases N <;> decide

/-- C1 witness: the third consecutive violation reaches the threshold, fires
the ban, and resets the stored count. -/
theorem c1_witness :
    (handleRuleViolation true true true (warnRunState 2)).warnedCount =
      min 3 MAX_WARNINGS
    ∧ ((handleRuleViolation true true true (warnRunState 2)).banFired = true ↔
        3 = MAX_WARNINGS)
    ∧ warnRunState 3 = if 3 = MAX_WARNINGS then 0 else 3 :=
  c1_warning_escalation 3 (by decide) (by decide)

/-! ## Persistence of the warning update -/

/-- C9 counterexample: in the link handler of the second unnamed file (first
variant), a message containing a URL is a determined violation, yet when the
best-effort `ctx.deleteMessage` fails the surrounding catch swallows the
error before `user.save()`, so the incremented warning count is never
persisted. -/
theorem c9_counterexample :
    containsUrlV1 (strCP "http://x") = true ∧ linkHandlerV1 0 false true true = none := by
  decide

/-- C9 amended: in the consolidated handler (`handleRuleViolation` of the
GroupManagerBot) the warning increment is persisted once a violation is
determined, regardless of any platform-call failure — the delete failure is
caught, and the unguarded reply runs only after the store update; in the
link handler of the second unnamed file, however, the store update is only
persisted when every platform call before `user.save()` succeeds. -/
theorem c9_amended_persistence (deleteOk replyOk banOk restrictOk : Bool) (count : Nat) :
    ((handleRuleViolation deleteOk replyOk banOk count).persisted = true
      ∧ (handleRuleViolation deleteOk replyOk banOk count).warnedCount = addWarning count)
    ∧ (linkHandlerV1 count deleteOk replyOk restrictOk = none ↔
        (if count + 1 < 3 then deleteOk = false ∨ replyOk = false
         else restrictOk = false ∨ replyOk = false)) := by
  constructor
  · unfold handleRuleViolation
    split_ifs <;> simp [addWarning] <;> split_ifs <;> simp
  · unfold linkHandlerV1
    by_cases h : count + 1 < 3 <;>
      simp only [h, if_true, if_false, if_pos, if_neg, not_false_iff] <;>
      cases deleteOk <;> cases replyOk <;> cases restrictOk <;> simp [h]

/-- C9 amended witness: with a failing delete on a first violation the
consolidated handler still persists count 1, while the link handler of the
second unnamed file persists nothing. -/
theorem c9_amended_witness :
    ((handleRuleViolation true false true 0).persisted = true
      ∧ (handleRuleViolation true false true 0).warnedCount = addWarning 0)
    ∧ (linkHandlerV1 0 true false true = none ↔
        (if 0 + 1 < 3 then true = false ∨ false = false
         else true = false ∨ false = false)) :=
  c9_amended_persistence true false true true 0

/-! ## Flood-window lemmas -/

theorem floodUpdate_all_kept (w : List Int) (now : Int)
    (h : ∀ x ∈ w, now - 7000 < x) :
    floodUpdate 5 7 w now =
      if (5 : Int) < ((w.length + 1 : Nat) : Int) then (true, [])
      else (false, w ++ [now]) := by
  have hf : (w ++ [now]).filter (fun ts => decide (now - 7 * 1000 < ts)) = w ++ [now] := by
    rw [List.filter_eq_self]
    intro x hx
    rcases List.mem_append.1 hx with hx | hx
    · exact decide_eq_true (by have := h x hx; omega)
    · rcases List.mem_singleton.1 hx with rfl
      exact decide_eq_true (by omega)
  simp only [floodUpdate, ite_self, hf, List.length_append, List.length_singleton]

/-- C3: with floodLimit 5 and floodWindowSeconds 7, six messages of one
(chat, user) pair within 7 seconds produce no flood violation on the first
five, exactly one violation on the sixth, and an empty window immediately
after; moreover the check fires precisely when the pruned window length
exceeds the flood limit (isFlooding(count, limit) iff count > limit). -/
theorem c3_flood_window (t1 t2 t3 t4 t5 t6 : Int)
    (h12 : t1 ≤ t2) (h23 : t2 ≤ t3) (h34 : t3 ≤ t4) (h45 : t4 ≤ t5) (h56 : t5 ≤ t6)
    (hwin : t6 - t1 < 7000) :
    floodRun 5 7 [] [t1, t2, t3, t4, t5, t6] =
      ([false, false, false, false, false, true], [])
    ∧ ∀ (w : List Int) (now : Int),
        ((floodUpdate 5 7 w now).1 = true ↔
          (5 : Int) <
            (((w ++ [now]).filter (fun ts => decide (now - 7000 < ts))).length : Int)) := by
  constructor
  · have s1 : floodUpdate 5 7 [] t1 = (false, [t1]) := by
      rw [floodUpdate_all_kept _ _ (by simp)]
      norm_num
    have s2 : floodUpdate 5 7 [t1] t2 = (false, [t1, t2]) := by
      rw [floodUpdate_all_kept _ _ (by intro x hx; simp at hx; omega)]
      norm_num
    have s3 : floodUpdate 5 7 [t1, t2] t3 = (false, [t1, t2, t3]) := by
      rw [floodUpdate_all_kept _ _ (by intro x hx; simp at hx; rcases hx with rfl | rfl <;> omega)]
      norm_num
    have s4 : floodUpdate 5 7 [t1, t2, t3] t4 = (false, [t1, t2, t3, t4]) := by
      rw [floodUpdate_all_kept _ _
        (by intro x hx; simp at hx; rcases hx with rfl | rfl | rfl <;> omega)]
      norm_num
    have s5 : floodUpdate 5 7 [t1, t2, t3, t4] t5 = (false, [t1, t2, t3, t4, t5]) := by
      rw [floodUpdate_all_kept _ _
        (by intro x hx; simp at hx; rcases hx with rfl | rfl | rfl | rfl <;> omega)]
      norm_num
    have s6 : floodUpdate 5 7 [t1, t2, t3, t4, t5] t6 = (true, []) := by
      rw [floodUpdate_all_kept _ _
        (by intro x hx; simp at hx; rcases hx with rfl | rfl | rfl | rfl | rfl <;> omega)]
      norm_num
    simp [floodRun, s1, s2, s3, s4, s5, s6]
  · intro w now
    simp only [floodUpdate, ite_self]
    norm_num
    split_ifs with hs <;> simp [hs]

/-- C3 witness: six messages at one-second intervals. -/
theorem c3_witness :
    floodRun 5 7 [] [0, 1000, 2000, 3000, 4000, 5000] =
      ([false, false, false, false, false, true], []) :=
  (c3_flood_window 0 1000 2000 3000 4000 5000 (by norm_num) (by norm_num)
    (by norm_num) (by norm_num) (by norm_num) (by norm_num)).1

/-! ## Exemption of admins and whitelisted users -/

theorem moderateMessage_exempt (adminRes : Bool) (g : GroupSettings) (gl : Globals)
    (oracle : Bool) (m : Msg) (w : List Int) (now : Int)
    (h : adminRes = true ∨ m.userId ∈ gl.whitelist ∨ m.userId ∈ g.whitelist) :
    moderateMessage adminRes g gl oracle m w now = (.allowed, w) := by
  rcases h with h | h
  · simp [moderateMessage, h]
  · unfold moderateMessage
    cases adminRes <;> simp [h]

/-- The concrete link-message of the exemption scenario: an admin message
whose text matches the link detector. -/
def linkMsg : Msg :=
  ⟨1, 42, none, some (strCP "http://spam.example x"), none⟩

/-- C4: a message whose sender is a chat admin or is in the global or group
whitelist is allowed by the pipeline with no further checks: no rule
evaluator fires and the flood window is not even recorded into, for every
message of the sequence (in particular for 10 link-containing messages in
one second). -/
theorem c4_exempt_never_violates (adminRes : Bool) (g : GroupSettings) (gl : Globals)
    (oracle : Bool) (w : List Int) (ms : List (Msg × Int))
    (h : ∀ p ∈ ms, adminRes = true ∨ p.1.userId ∈ gl.whitelist ∨ p.1.userId ∈ g.whitelist) :
    moderateSeq adminRes g gl oracle w ms = (ms.map fun _ => Verdict.allowed, w) := by
  induction ms with
  | nil => simp [moderateSeq]
  | cons p ps ih =>
    have hp := h p (List.mem_cons_self _ _)
    have hps : ∀ q ∈ ps, adminRes = true ∨ q.1.userId ∈ gl.whitelist ∨ q.1.userId ∈ g.whitelist :=
      fun q hq => h q (List.mem_cons_of_mem _ hq)
    simp [moderateSeq, moderateMessage_exempt adminRes g gl oracle p.1 w p.2 hp, ih hps]

/-- C4 witness: an admin sending ten link messages within one second draws
zero violations and leaves the flood window empty. -/
theorem c4_witness :
    moderateSeq true defaultGroup emptyGlobals false []
        ((List.range 10).map fun i => (linkMsg, (i : Int) * 100)) =
      (List.replicate 10 Verdict.allowed, []) := by
  have h := c4_exempt_never_violates true defaultGroup emptyGlobals false []
    ((List.range 10).map fun i => (linkMsg, (i : Int) * 100))
    (fun p _ => Or.inl rfl)
  rw [h]
  decide

/-! ## Captcha admission gate -/

/-- C6: a user with a live, unexpired challenge entry whose next text message
parses (as an integer) to the expected answer resolves the gate: the send
restriction is lifted (best-effort `restrictChatMember` with full
permissions), the entry is deleted, and the message is consumed entirely by
the gate — it never reaches the moderation pipeline. -/
theorem c6_captcha_solved (adminRes : Bool) (g : GroupSettings) (gl : Globals)
    (oracle : Bool) (m : Msg) (txt : List Nat) (e : CapEntry) (w : List Int)
    (now : Int) (grp : Bool)
    (htxt : m.text = some txt) (hne : txt ≠ [])
    (hlive : now ≤ e.expiresAt)
    (hans : parseIntJS (trimWS txt) = some e.answer) :
    handleTextMessage adminRes g gl oracle m (some e) w now grp =
      (.gate .solved, none, w)
    ∧ Action.restorePerms ∈ gateActions .solved
    ∧ ∀ v, HandlerResult.gate GateOutcome.solved ≠ HandlerResult.moderated v := by
  refine ⟨?_, by simp [gateActions], by intro v h; cases h⟩
  simp only [handleTextMessage, htxt, hne, if_neg, not_lt.2 hlive, if_false, hans]
  simp [not_lt.2 hlive, hne]

/-- C6 witness: answer 7 within the expiry window. -/
theorem c6_witness :
    handleTextMessage false defaultGroup emptyGlobals false
        ⟨1, 42, none, some (strCP "7"), none⟩ (some ⟨7, 1000, 0⟩) [] 500 true =
      (.gate .solved, none, []) :=
  (c6_captcha_solved false defaultGroup emptyGlobals false
    ⟨1, 42, none, some (strCP "7"), none⟩ (strCP "7") ⟨7, 1000, 0⟩ [] 500 true
    rfl (by decide) (by decide) (by decide)).1

/-- C7: a wrong, non-expired answer from a challenged user — including
malformed non-integer text, which parses to NaN, is treated as a wrong
answer, and never crashes the (total) handler — increments the used tries;
below 3 tries the user stays challenged and is told the remaining tries, and
at 3 tries the gate kicks the user and deletes the entry. -/
theorem c7_captcha_wrong (adminRes : Bool) (g : GroupSettings) (gl : Globals)
    (oracle : Bool) (m : Msg) (txt : List Nat) (e : CapEntry) (w : List Int)
    (now : Int) (grp : Bool)
    (htxt : m.text = some txt) (hne : txt ≠ [])
    (hlive : now ≤ e.expiresAt)
    (hwrong : parseIntJS (trimWS txt) ≠ some e.answer) :
    handleTextMessage adminRes g gl oracle m (some e) w now grp =
      (if 3 ≤ e.tries + 1 then (.gate .failedKick, none, w)
       else (.gate (.retry (3 - (e.tries + 1))), some ⟨e.answer, e.expiresAt, e.tries + 1⟩, w))
    ∧ Action.kick ∈ gateActions .failedKick
    ∧ gateActions (.retry (3 - (e.tries + 1))) =
        [.notifyTriesLeft (3 - (e.tries + 1))] := by
  refine ⟨?_, by simp [gateActions], by simp [gateActions]⟩
  cases hp : parseIntJS (trimWS txt) with
  | none => simp [handleTextMessage, htxt, hne, not_lt.2 hlive, hp]
  | some n =>
    have hn : n ≠ e.answer := by
      intro hcontra
      exact hwrong (hcontra ▸ hp)
    simp [handleTextMessage, htxt, hne, not_lt.2 hlive, hp, hn]

/-- C7 witness: a malformed third answer kicks the challenged user. -/
theorem c7_witness :
    handleTextMessage false defaultGroup emptyGlobals false
        ⟨1, 42, none, some (strCP "abc"), none⟩ (some ⟨7, 1000, 2⟩) [] 500 true =
      (if 3 ≤ 2 + 1 then (.gate .failedKick, none, [])
       else (.gate (.retry (3 - (2 + 1))), some ⟨7, 1000, 2 + 1⟩, [])) :=
  (c7_captcha_wrong false defaultGroup emptyGlobals false
    ⟨1, 42, none, some (strCP "abc"), none⟩ (strCP "abc") ⟨7, 1000, 2⟩ [] 500 true
    rfl (by decide) (by decide) (by decide)).1

/-- C8: the deferred expiry check fires `expiryTimerDelayMs` (125 s, a 5 s
grace beyond the 120 s expiry) after the challenge was installed; when the
entry of that challenge is still present it is necessarily past its
`expiresAt`, so the check kicks and deletes it, and when the entry was
already removed by a resolution or a failed attempt the check is a no-op —
the same challenge never kicks twice. -/
theorem c8_expiry_check (cap : Option CapEntry) (ans created fireTime : Int)
    (hentry : ∀ e, cap = some e → e = newChallenge ans created)
    (hfire : created + expiryTimerDelayMs ≤ fireTime) :
    (captchaExpiryCheck cap fireTime = if cap = none then (false, none) else (true, none))
    ∧ captchaExpiryCheck none fireTime = (false, none) := by
  refine ⟨?_, by simp [captchaExpiryCheck]⟩
  cases cap with
  | none => simp [captchaExpiryCheck]
  | some e =>
    have he := hentry e rfl
    subst he
    rw [if_neg (by simp)]
    have hlt : (newChallenge ans created).expiresAt < fireTime := by
      simp only [newChallenge, challengeDurationMs, expiryTimerDelayMs] at *
      omega
    simp [captchaExpiryCheck, hlt]

/-- C8 witness: a still-present challenge installed at time 0 is kicked when
the timer fires at 125 s. -/
theorem c8_witness :
    captchaExpiryCheck (some (newChallenge 7 0)) 125000 = (true, none) :=
  (c8_expiry_check (some (newChallenge 7 0)) 7 0 125000
    (fun e he => by cases he; rfl) (by decide)).1

/-- C10: a text message from a user whose challenge entry is past its
`expiresAt` (the deferred timer has not fired yet) silently deletes the
entry and drops the message: no kick is issued on this path, no other gate
action runs, and the message never reaches the moderation pipeline. -/
theorem c10_expired_entry_dropped (adminRes : Bool) (g : GroupSettings) (gl : Globals)
    (oracle : Bool) (m : Msg) (txt : List Nat) (e : CapEntry) (w : List Int)
    (now : Int) (grp : Bool)
    (htxt : m.text = some txt) (hne : txt ≠ [])
    (hexp : e.expiresAt < now) :
    handleTextMessage adminRes g gl oracle m (some e) w now grp =
      (.gate .expiredDrop, none, w)
    ∧ gateActions .expiredDrop = []
    ∧ ∀ v, HandlerResult.gate GateOutcome.expiredDrop ≠ HandlerResult.moderated v := by
  refine ⟨?_, rfl, by intro v h; cases h⟩
  simp [handleTextMessage, htxt, hne, hexp]

/-- C10 witness: an entry that lapsed at time 1000 consumes a message at
time 2000 with no kick. -/
theorem c10_witness :
    handleTextMessage false defaultGroup emptyGlobals false
        ⟨1, 42, none, some (strCP "5"), none⟩ (some ⟨7, 1000, 0⟩) [] 2000 true =
      (.gate .expiredDrop, none, []) :=
  (c10_expired_entry_dropped false defaultGroup emptyGlobals false
    ⟨1, 42, none, some (strCP "5"), none⟩ (strCP "5") ⟨7, 1000, 0⟩ [] 2000 true
    rfl (by decide) (by decide)).1

/-! ## Pipeline ordering -/

/-- Steps 1-2 of `moderateMessage`: the sender is admin, or globally or
group whitelisted. -/
def exemptCond (adminRes : Bool) (g : GroupSettings) (gl : Globals) (m : Msg) : Prop :=
  adminRes = true ∨ m.userId ∈ gl.whitelist ∨ m.userId ∈ g.whitelist

/-- Step 3 of `moderateMessage`: the sender is globally or group
blacklisted. -/
def blackCond (g : GroupSettings) (gl : Globals) (m : Msg) : Prop :=
  m.userId ∈ gl.blacklist ∨ m.userId ∈ g.blacklist

/-- The language-filter condition of `moderateMessage`. -/
def langCond (m : Msg) : Prop :=
  hasChineseCP (lowerText m) = true ∨ hasRussianCP (lowerText m) = true

/-- The flood condition of `moderateMessage`: flood control enabled and the
updated window over the limit. -/
def floodCond (g : GroupSettings) (w : List Int) (now : Int) : Prop :=
  0 < g.floodLimit ∧ (floodUpdate g.floodLimit g.floodWindowSec w now).1 = true

instance (adminRes : Bool) (g : GroupSettings) (gl : Globals) (m : Msg) :
    Decidable (exemptCond adminRes g gl m) := by
  unfold exemptCond; exact inferInstance

instance (g : GroupSettings) (gl : Globals) (m : Msg) :
    Decidable (blackCond g gl m) := by
  unfold blackCond; exact inferInstance

instance (m : Msg) : Decidable (langCond m) := by
  unfold langCond; exact inferInstance

instance (g : GroupSettings) (w : List Int) (now : Int) :
    Decidable (floodCond g w now) := by
  unfold floodCond; exact inferInstance

set_option maxHeartbeats 2000000 in
theorem moderateMessage_eq_ordered (adminRes : Bool) (g : GroupSettings) (gl : Globals)
    (oracle : Bool) (m : Msg) (w : List Int) (now : Int) :
    (moderateMessage adminRes g gl oracle m w now).1 =
      if exemptCond adminRes g gl m then Verdict.allowed
      else if blackCond g gl m then Verdict.blacklistBan
      else if isUsernameSpam m.username then Verdict.violation Reason.suspiciousUsername
      else if hfSpamCheck oracle (msgText m) then Verdict.violation Reason.aiSpam
      else if langCond m then Verdict.violation Reason.foreignLanguage
      else if hasAdult (lowerText m) then Verdict.violation Reason.adultContent
      else if urlTest (lowerText m) then Verdict.violation Reason.linkDetected
      else if floodCond g w now then Verdict.violation Reason.flooding
      else Verdict.allowed := by
  simp only [moderateMessage, exemptCond, blackCond, langCond, floodCond]
  split_ifs <;> simp_all

/-- The concrete message of the C2 counterexample: its text is a configured
banned word. -/
def cexMsg : Msg := ⟨1, 42, none, some (strCP "spamword"), none⟩

/-- C2 counterexample: the §4.3 order prescribes a banned-words check at
step 9, and on a message whose text is a configured banned word (no earlier
check matching) that pipeline yields a banned-words violation — but the
`index.js` handler, which has no banned-word check at all, allows the same
message, so the pipeline does not run the checks of the §4.3 order. -/
theorem c2_counterexample :
    specPipeline (decide (exemptCond false defaultGroup emptyGlobals cexMsg))
        (decide (blackCond defaultGroup emptyGlobals cexMsg))
        (none : Option CapEntry).isSome
        (isUsernameSpam cexMsg.username)
        (hfSpamCheck false (msgText cexMsg))
        (hasChineseCP (lowerText cexMsg) || hasRussianCP (lowerText cexMsg))
        (hasAdult (lowerText cexMsg))
        (urlTest (lowerText cexMsg))
        (containsBannedWords (msgText cexMsg) [strCP "spamword"])
        (floodUpdate defaultGroup.floodLimit defaultGroup.floodWindowSec [] 0).1 =
      SpecOutcome.violation SpecCheck.words
    ∧ (handleTextMessage false defaultGroup emptyGlobals false cexMsg none [] 0 true).1 =
        HandlerResult.moderated Verdict.allowed := by
  decide

set_option maxHeartbeats 4000000 in
/-- C2 amended: the `index.js` pipeline runs its checks in the fixed order
exemption, blacklist, username, oracle, scripts, adult content, links,
flood — with no banned-word check — stopping at the first match, and its
output is either allowed, the blacklist ban, or exactly one violation reason
(single by construction of `Verdict`); each outcome occurs precisely when
its own check matches and every earlier check failed.  The admission gate is
consulted in the message handler before the pipeline (and before the
exemption check): a sender with a live entry always gets a gate outcome and
never reaches `moderateMessage`. -/
theorem c2_amended_order (adminRes : Bool) (g : GroupSettings) (gl : Globals)
    (oracle : Bool) (m : Msg) (w : List Int) (now : Int) :
    ((moderateMessage adminRes g gl oracle m w now).1 = .blacklistBan ↔
      ¬exemptCond adminRes g gl m ∧ blackCond g gl m)
    ∧ ((moderateMessage adminRes g gl oracle m w now).1 = .violation .suspiciousUsername ↔
      ¬exemptCond adminRes g gl m ∧ ¬blackCond g gl m ∧ isUsernameSpam m.username = true)
    ∧ ((moderateMessage adminRes g gl oracle m w now).1 = .violation .aiSpam ↔
      ¬exemptCond adminRes g gl m ∧ ¬blackCond g gl m ∧ ¬isUsernameSpam m.username = true ∧
        hfSpamCheck oracle (msgText m) = true)
    ∧ ((moderateMessage adminRes g gl oracle m w now).1 = .violation .foreignLanguage ↔
      ¬exemptCond adminRes g gl m ∧ ¬blackCond g gl m ∧ ¬isUsernameSpam m.username = true ∧
        ¬hfSpamCheck oracle (msgText m) = true ∧ langCond m)
    ∧ ((moderateMessage adminRes g gl oracle m w now).1 = .violation .adultContent ↔
      ¬exemptCond adminRes g gl m ∧ ¬blackCond g gl m ∧ ¬isUsernameSpam m.username = true ∧
        ¬hfSpamCheck oracle (msgText m) = true ∧ ¬langCond m ∧
        hasAdult (lowerText m) = true)
    ∧ ((moderateMessage adminRes g gl oracle m w now).1 = .violation .linkDetected ↔
      ¬exemptCond adminRes g gl m ∧ ¬blackCond g gl m ∧ ¬isUsernameSpam m.username = true ∧
        ¬hfSpamCheck oracle (msgText m) = true ∧ ¬langCond m ∧
        ¬hasAdult (lowerText m) = true ∧ urlTest (lowerText m) = true)
    ∧ ((moderateMessage adminRes g gl oracle m w now).1 = .violation .flooding ↔
      ¬exemptCond adminRes g gl m ∧ ¬blackCond g gl m ∧ ¬isUsernameSpam m.username = true ∧
        ¬hfSpamCheck oracle (msgText m) = true ∧ ¬langCond m ∧
        ¬hasAdult (lowerText m) = true ∧ ¬urlTest (lowerText m) = true ∧ floodCond g w now)
    ∧ ((moderateMessage adminRes g gl oracle m w now).1 = .allowed ↔
      exemptCond adminRes g gl m ∨
        (¬blackCond g gl m ∧ ¬isUsernameSpam m.username = true ∧
         ¬hfSpamCheck oracle (msgText m) = true ∧ ¬langCond m ∧
         ¬hasAdult (lowerText m) = true ∧ ¬urlTest (lowerText m) = true ∧
         ¬floodCond g w now))
    ∧ (∀ (e : CapEntry) (c : Nat) (rest : List Nat) (grp : Bool),
        ∃ go, (handleTextMessage adminRes g gl oracle
            ⟨m.chatId, m.userId, m.username, some (c :: rest), m.caption⟩
            (some e) w now grp).1 = .gate go) := by
  have heq := moderateMessage_eq_ordered adminRes g gl oracle m w now
  refine ⟨?_, ?_, ?_, ?_, ?_, ?_, ?_, ?_, ?_⟩
  case _ => rw [heq]; split_ifs <;> simp_all
  case _ => rw [heq]; split_ifs <;> simp_all
  case _ => rw [heq]; split_ifs <;> simp_all
  case _ => rw [heq]; split_ifs <;> simp_all
  case _ => rw [heq]; split_ifs <;> simp_all
  case _ => rw [heq]; split_ifs <;> simp_all
  case _ => rw [heq]; split_ifs <;> simp_all
  case _ => rw [heq]; split_ifs <;> simp_all
  case _ =>
    intro e c rest grp
    by_cases hx : e.expiresAt < now
    · exact ⟨.expiredDrop, by simp [handleTextMessage, hx]⟩
    · rcases hp : parseIntJS (trimWS (c :: rest)) with _ | n
      · by_cases h3 : 3 ≤ e.tries + 1
        · exact ⟨.failedKick, by simp [handleTextMessage, hx, hp, h3]⟩
        · exact ⟨.retry (3 - (e.tries + 1)), by simp [handleTextMessage, hx, hp, h3]⟩
      · by_cases hn : n = e.answer
        · exact ⟨.solved, by simp [handleTextMessage, hx, hp, hn]⟩
        · by_cases h3 : 3 ≤ e.tries + 1
          · exact ⟨.failedKick, by simp [handleTextMessage, hx, hp, hn, h3]⟩
          · exact ⟨.retry (3 - (e.tries + 1)), by simp [handleTextMessage, hx, hp, hn, h3]⟩

/-- C2 amended witness: the link conjunct instantiated at a concrete
non-exempt link message. -/
theorem c2_witness :
    (moderateMessage false defaultGroup emptyGlobals false linkMsg [] 0).1 =
        .violation .linkDetected ↔
      ¬exemptCond false defaultGroup emptyGlobals linkMsg ∧
        ¬blackCond defaultGroup emptyGlobals linkMsg ∧
        ¬isUsernameSpam linkMsg.username = true ∧
        ¬hfSpamCheck false (msgText linkMsg) = true ∧ ¬langCond linkMsg ∧
        ¬hasAdult (lowerText linkMsg) = true ∧ urlTest (lowerText linkMsg) = true :=
  (c2_amended_order false defaultGroup emptyGlobals false linkMsg [] 0).2.2.2.2.2.1

end LinkRemover
